import Mathlib

/-!
# bayer2rgb: the TIFF header synthesiser, the option decoders, the 16-bit
byte-swap pass and the driver of `bayer2rgb.c`

The C code is embedded shallowly.  Buffers reached through a base pointer are
functions from byte offsets to bytes; unsigned C integers are natural numbers
reduced modulo `2^16` or `2^32` where the C arithmetic does so; calls into the
operating system and into the demosaicing library are recorded in a trace and
their results are read from an environment.
-/

namespace Bayer2rgb

/-! ## Machine integers, memory and `memcpy` -/

/-- Memory seen through a base pointer: byte offset to byte value. -/
abbrev Mem := Nat → Nat

/-- Byte order of the host on which the program runs. -/
inductive Endian where
  | little
  | big
deriving DecidableEq, Repr

/-- Conversion to `uint16_t`. -/
def u16 (n : Nat) : Nat := n % 65536

/-- Conversion to `uint32_t`, and the result of 32-bit unsigned arithmetic. -/
def u32 (n : Nat) : Nat := n % 4294967296

/-- The `n` low-order bytes of `v`, least significant first. -/
def leBytes : Nat → Nat → List Nat
  | 0, _ => []
  | n + 1, v => (v % 256) :: leBytes n (v / 256)

/-- Object representation of an `n`-byte unsigned integer holding `v`, in the
order in which the host keeps it in memory. -/
def objBytes (host : Endian) (n v : Nat) : List Nat :=
  match host with
  | Endian.little => leBytes n v
  | Endian.big => (leBytes n v).reverse

/-- The call `memcpy(dst + off, src, n)`. -/
def memcpy (dst : Mem) (off : Nat) (src : List Nat) (n : Nat) : Mem :=
  fun a => if off ≤ a ∧ a < off + n then src.getD (a - off) 0 else dst a

/-- A 16-bit little-endian read at offset `off`. -/
def le16 (m : Mem) (off : Nat) : Nat := m off + 256 * m (off + 1)

/-- A 32-bit little-endian read at offset `off`. -/
def le32 (m : Mem) (off : Nat) : Nat :=
  m off + 256 * m (off + 1) + 65536 * m (off + 2) + 16777216 * m (off + 3)

/-! ## The TIFF header (`tiff_header`, `put_tiff`) -/

def TIFF_HDR_NUM_ENTRY : Nat := 8

/-- The macro `TIFF_HDR_SIZE`, which expands to `10+TIFF_HDR_NUM_ENTRY*12`; at
each of its uses the expansion stands where a sum may stand. -/
def TIFF_HDR_SIZE : Nat := 10 + TIFF_HDR_NUM_ENTRY * 12

/-- The global array `tiff_header`. -/
def tiff_header : List Nat :=
  [ 0x49, 0x49, 0x2a, 0x00,
    0x08, 0x00, 0x00, 0x00,
    0x08, 0x00,
    0xfe, 0x00, 0x04, 0x00, 0x01, 0x00, 0x00, 0x00, 0x00, 0x00, 0x00, 0x00,
    0x00, 0x01, 0x03, 0x00, 0x01, 0x00, 0x00, 0x00, 0x00, 0x00, 0x00, 0x00,
    0x01, 0x01, 0x03, 0x00, 0x01, 0x00, 0x00, 0x00, 0x00, 0x00, 0x00, 0x00,
    0x02, 0x01, 0x03, 0x00, 0x01, 0x00, 0x00, 0x00, 0x00, 0x00, 0x00, 0x00,
    0x06, 0x01, 0x03, 0x00, 0x01, 0x00, 0x00, 0x00, 0x02, 0x00, 0x00, 0x00,
    0x11, 0x01, 0x03, 0x00, 0x01, 0x00, 0x00, 0x00, 0x08, 0x00, 0x00, 0x00,
    0x15, 0x01, 0x03, 0x00, 0x01, 0x00, 0x00, 0x00, 0x03, 0x00, 0x00, 0x00,
    0x17, 0x01, 0x04, 0x00, 0x01, 0x00, 0x00, 0x00, 0x00, 0x00, 0x00, 0x00 ]

/-- The value of `ulTemp` after `ulTemp = width * height * (bpp / 8) * 3;`:
every product is taken in 32-bit unsigned arithmetic. -/
def strip_byte_count (width height bpp : Nat) : Nat :=
  u32 (u32 (u32 (width * height) * (bpp / 8)) * 3)

/-- The function `put_tiff`: the buffer after the call, and the returned
pointer as an offset from `rgb`.  `width` and `height` are `uint32_t`, `bpp`
is `uint16_t`. -/
def put_tiff (host : Endian) (rgb : Mem) (width height bpp : Nat) : Mem × Nat :=
  let rgb := memcpy rgb 0 tiff_header TIFF_HDR_SIZE
  let sTemp := u16 TIFF_HDR_NUM_ENTRY
  let rgb := memcpy rgb 8 (objBytes host 2 sTemp) 2
  let rgb := memcpy rgb (10 + 1 * 12 + 8) (objBytes host 4 width) 4
  let rgb := memcpy rgb (10 + 2 * 12 + 8) (objBytes host 4 height) 4
  let rgb := memcpy rgb (10 + 3 * 12 + 8) (objBytes host 2 bpp) 2
  let ulTemp := strip_byte_count width height bpp
  let rgb := memcpy rgb (10 + 7 * 12 + 8) (objBytes host 4 ulTemp) 4
  let sTemp := u16 TIFF_HDR_SIZE
  let rgb := memcpy rgb (10 + 5 * 12 + 8) (objBytes host 2 sTemp) 2
  (rgb, TIFF_HDR_SIZE)

/-- The first `n` bytes of a buffer. -/
def bytes (m : Mem) (n : Nat) : List Nat := (List.range n).map m

/-- The `n` bytes of a buffer from offset `off` on. -/
def field (m : Mem) (off n : Nat) : List Nat := (List.range n).map (fun j => m (off + j))

/-- What the little-endian header is to hold for the four patched values,
each written least significant byte first. -/
def expected_header (width height bpp strip : Nat) : List Nat :=
  [ 0x49, 0x49, 0x2a, 0x00,
    0x08, 0x00, 0x00, 0x00,
    0x08, 0x00,
    0xfe, 0x00, 0x04, 0x00, 0x01, 0x00, 0x00, 0x00, 0x00, 0x00, 0x00, 0x00,
    0x00, 0x01, 0x03, 0x00, 0x01, 0x00, 0x00, 0x00,
      width % 256, width / 256 % 256, width / 256 / 256 % 256, width / 256 / 256 / 256 % 256,
    0x01, 0x01, 0x03, 0x00, 0x01, 0x00, 0x00, 0x00,
      height % 256, height / 256 % 256, height / 256 / 256 % 256, height / 256 / 256 / 256 % 256,
    0x02, 0x01, 0x03, 0x00, 0x01, 0x00, 0x00, 0x00,
      bpp % 256, bpp / 256 % 256, 0x00, 0x00,
    0x06, 0x01, 0x03, 0x00, 0x01, 0x00, 0x00, 0x00, 0x02, 0x00, 0x00, 0x00,
    0x11, 0x01, 0x03, 0x00, 0x01, 0x00, 0x00, 0x00, 0x6a, 0x00, 0x00, 0x00,
    0x15, 0x01, 0x03, 0x00, 0x01, 0x00, 0x00, 0x00, 0x03, 0x00, 0x00, 0x00,
    0x17, 0x01, 0x04, 0x00, 0x01, 0x00, 0x00, 0x00,
      strip % 256, strip / 256 % 256, strip / 256 / 256 % 256, strip / 256 / 256 / 256 % 256 ]

/-! ## The option decoders (`getMethod`, `getFirstColor`) -/

/-- Modelled from the spec: the enumeration `dc1394bayer_method_t` is declared
in `bayer.h`, which is not among the sources; the spec lists its eight
enumerants. -/
inductive dc1394bayer_method_t where
  | DC1394_BAYER_METHOD_NEAREST
  | DC1394_BAYER_METHOD_SIMPLE
  | DC1394_BAYER_METHOD_BILINEAR
  | DC1394_BAYER_METHOD_HQLINEAR
  | DC1394_BAYER_METHOD_DOWNSAMPLE
  | DC1394_BAYER_METHOD_EDGESENSE
  | DC1394_BAYER_METHOD_VNG
  | DC1394_BAYER_METHOD_AHD
deriving DecidableEq, Repr

/-- Modelled from the spec: the enumeration `dc1394color_filter_t` is declared
in `bayer.h`, which is not among the sources; the spec lists its four
enumerants. -/
inductive dc1394color_filter_t where
  | DC1394_COLOR_FILTER_RGGB
  | DC1394_COLOR_FILTER_GBRG
  | DC1394_COLOR_FILTER_GRBG
  | DC1394_COLOR_FILTER_BGGR
deriving DecidableEq, Repr

open dc1394bayer_method_t dc1394color_filter_t

/-- The function `getMethod`: the enumerant returned, and the lines written to
`stderr`.  The argument is a C string, here the characters before its
terminating NUL; `strcmp(m, s) == 0` is equality with `s`. -/
def getMethod (m : String) : dc1394bayer_method_t × List String :=
  if m = "NEAREST" then (DC1394_BAYER_METHOD_NEAREST, [])
  else if m = "SIMPLE" then (DC1394_BAYER_METHOD_SIMPLE, [])
  else if m = "BILINEAR" then (DC1394_BAYER_METHOD_BILINEAR, [])
  else if m = "HQLINEAR" then (DC1394_BAYER_METHOD_HQLINEAR, [])
  else if m = "DOWNSAMPLE" then (DC1394_BAYER_METHOD_DOWNSAMPLE, [])
  else if m = "EDGESENSE" then (DC1394_BAYER_METHOD_EDGESENSE, [])
  else if m = "VNG" then (DC1394_BAYER_METHOD_VNG, [])
  else if m = "AHD" then (DC1394_BAYER_METHOD_AHD, [])
  else (DC1394_BAYER_METHOD_BILINEAR,
    ["WARNING: Unrecognized method \"" ++ m ++ "\", defaulting to BILINEAR\n"])

/-- The function `getFirstColor`: the enumerant returned, and the lines written
to `stderr`. -/
def getFirstColor (f : String) : dc1394color_filter_t × List String :=
  if f = "RGGB" then (DC1394_COLOR_FILTER_RGGB, [])
  else if f = "GBRG" then (DC1394_COLOR_FILTER_GBRG, [])
  else if f = "GRBG" then (DC1394_COLOR_FILTER_GRBG, [])
  else if f = "BGGR" then (DC1394_COLOR_FILTER_BGGR, [])
  else (DC1394_COLOR_FILTER_RGGB,
    ["WARNING: Unrecognized first color \"" ++ f ++ "\", defaulting to RGGB\n"])

/-! ## The byte-swap loop of `main` -/

/-- The mapped input while the swap loop runs, with the byte offsets from
`bayer` that the loop has dereferenced so far, oldest first. -/
structure SwapState where
  bayer : Mem
  touched : List Nat

/-- The assignment `*(bayer + a) = v`. -/
def store (m : Mem) (a v : Nat) : Mem := fun b => if b = a then v else m b

/-- The body of the swap loop at index `i`:
`tmp = bayer[i]; bayer[i] = bayer[i+1]; bayer[i+1] = tmp;`. -/
def swap_body (s : SwapState) (i : Nat) : SwapState :=
  let tmp := s.bayer i
  let b1 := store s.bayer i (s.bayer (i + 1))
  let b2 := store b1 (i + 1) tmp
  { bayer := b2, touched := s.touched ++ [i, i + 1, i, i + 1] }

/-- The loop `for(i=0;i<in_size;i+=2) ...` from the value `i` of its counter on;
the counter is a `uint32_t`.  The result is `none` when the loop has not left
within `fuel` tests of its condition. -/
def swap_loop : Nat → Nat → Nat → SwapState → Option SwapState
  | 0, _, _, _ => none
  | fuel + 1, in_size, i, s =>
    if i < in_size then swap_loop fuel in_size (u32 (i + 2)) (swap_body s i) else some s

/-- The whole swap pass over the mapped input, counter starting at 0. -/
def swap_pass (fuel in_size : Nat) (bayer : Mem) : Option SwapState :=
  swap_loop fuel in_size 0 { bayer := bayer, touched := [] }

/-- The buffer in which the two bytes of every 16-bit sample that begins
below offset `n` have changed places. -/
def swapped (n : Nat) (m : Mem) : Mem :=
  fun a => if a < n + n % 2 then (if a % 2 = 0 then m (a + 1) else m (a - 1)) else m a

/-- The offsets dereferenced by `k` runs of the loop body from index `i` on. -/
def swap_offsets : Nat → Nat → List Nat
  | _, 0 => []
  | i, k + 1 => [i, i + 1, i, i + 1] ++ swap_offsets (i + 2) k

/-! ## The driver (`main`, from the parameter check on) -/

/-- The variables of `main` that the option loop has set when it ends. -/
structure Config where
  infile : Option String
  outfile : Option String
  width : Nat
  height : Nat
  bpp : Nat
  first_color : dc1394color_filter_t
  method : dc1394bayer_method_t
  /-- Zero, or `TIFF_HDR_SIZE` after `--tiff`. -/
  tiff : Nat
  swap : Bool

/-- The calls of `main` that make, open, size, map, decode, sync or release a
file or a buffer, with the arguments that matter; a trace lists them in the
order in which they are made.  The rewinding `lseek`, the calls of `close`
and the messages on `stderr` are left out. -/
inductive Event where
  | mkstemp_input
  | open_input (infile : String)
  | mkstemp_output
  | open_output (outfile : String)
  | lseek_input
  | ftruncate_output (out_size : Nat)
  | mmap_input (in_size : Nat)
  | mmap_output (out_size : Nat)
  | put_tiff (width height bpp : Nat)
  | swap_bytes (touched : List Nat)
  | decoding_8bit (rgb_start width height : Nat) (tile : dc1394color_filter_t)
      (method : dc1394bayer_method_t)
  | decoding_16bit (rgb_start width height : Nat) (tile : dc1394color_filter_t)
      (method : dc1394bayer_method_t) (bits : Nat)
  | munmap_input
  | msync_output (out_size : Nat)
  | munmap_output
  | fsync_output
  | write_stdout (total_bytes : Nat)
deriving DecidableEq, Repr

/-- What the operating system and the demosaicing library answer to the calls
of `main`.  File descriptors are the integers returned by `open`; a mapping
of a nonzero length is the memory it gives access to, or `none` for
`MAP_FAILED`; the `read_and_store` that copies the output to `stdout` either
returns (`true`) or leaves the process with `EXIT_FAILURE`; a decoder takes
the input, the output buffer and the offset of `rgb_start` in it and gives
the output buffer it leaves behind, its call being taken to return. -/
structure Env where
  host : Endian
  open_input : Int
  open_output : Int
  lseek_end : Int
  mmap_input : Option Mem
  mmap_output : Option Mem
  decoding_8bit : Mem → Mem → Nat → Nat → Nat → dc1394color_filter_t → dc1394bayer_method_t → Mem
  decoding_16bit : Mem → Mem → Nat → Nat → Nat → dc1394color_filter_t → dc1394bayer_method_t →
    Nat → Mem
  write_stdout_ok : Bool

/-- How a run of `main` ends: the status with which the process ends, the
calls made, and the two mapped buffers as the run leaves them (`none` when
never mapped).  The status is the value returned by `main` or handed to
`exit`, or `killed_by_SIGSEGV` for a process that the signal ends. -/
structure Result where
  status : Nat
  trace : List Event
  bayer : Option Mem
  rgb : Option Mem

/-- The status 128 + 11 under which a shell reports a process killed by
`SIGSEGV`. -/
def killed_by_SIGSEGV : Nat := 139

/-- The call `mmap(NULL, length, ...)`: a mapping of length 0 is refused
(`MAP_FAILED`, `EINVAL`), any other length gets the answer of the operating
system. -/
def mmap (length : Nat) (answer : Option Mem) : Option Mem :=
  if length = 0 then none else answer

/-- The value of `in_size` after `in_size = lseek(input_fd, 0, SEEK_END);`. -/
def in_size_of (env : Env) : Nat := (env.lseek_end % 4294967296).toNat

/-- The value of `out_size` after
`out_size = width * height * (bpp / 8) * 3 + tiff;`. -/
def out_size_of (c : Config) : Nat :=
  u32 (u32 (u32 (u32 (c.width * c.height) * (c.bpp / 8)) * 3) + c.tiff)

/-- The end of `main` after decoding: unmapping, syncing, and the copy of the
output to `stdout` when the output file is `-`. -/
def main_finish (env : Env) (outfile : String) (out_size : Nat) (trace : List Event)
    (bayer rgb : Mem) : Result :=
  let trace := trace ++ [Event.munmap_input, Event.msync_output out_size, Event.munmap_output,
    Event.fsync_output]
  if outfile = "-" then
    if env.write_stdout_ok then
      { status := 0, trace := trace ++ [Event.write_stdout out_size],
        bayer := some bayer, rgb := some rgb }
    else
      { status := 1, trace := trace ++ [Event.write_stdout out_size],
        bayer := some bayer, rgb := some rgb }
  else
    { status := 0, trace := trace, bayer := some bayer, rgb := some rgb }

/-- The `switch(bpp)` of `main`, with the optional swap loop, and what follows
it.  `rgb_start` is an offset from `rgb`. -/
def main_decode (fuel : Nat) (env : Env) (c : Config) (outfile : String)
    (in_size out_size : Nat) (trace : List Event) (bayer rgb : Mem) (rgb_start : Nat) :
    Option Result :=
  if c.bpp = 8 then
    some (main_finish env outfile out_size
      (trace ++ [Event.decoding_8bit rgb_start c.width c.height c.first_color c.method])
      bayer
      (env.decoding_8bit bayer rgb rgb_start c.width c.height c.first_color c.method))
  else
    if c.swap then
      match swap_pass fuel in_size bayer with
      | none => none
      | some s =>
        some (main_finish env outfile out_size
          (trace ++ [Event.swap_bytes s.touched,
            Event.decoding_16bit rgb_start c.width c.height c.first_color c.method c.bpp])
          s.bayer
          (env.decoding_16bit s.bayer rgb rgb_start c.width c.height c.first_color c.method
            c.bpp))
    else
      some (main_finish env outfile out_size
        (trace ++ [Event.decoding_16bit rgb_start c.width c.height c.first_color c.method c.bpp])
        bayer
        (env.decoding_16bit bayer rgb rgb_start c.width c.height c.first_color c.method c.bpp))

/-- The part of `main` that sizes and maps the two files and writes the
optional header. -/
def main_map (fuel : Nat) (env : Env) (c : Config) (outfile : String) (trace : List Event) :
    Option Result :=
  let in_size := in_size_of env
  let out_size := out_size_of c
  let trace := trace ++ [Event.lseek_input, Event.ftruncate_output out_size,
    Event.mmap_input in_size]
  match mmap in_size env.mmap_input with
  | none => some { status := 1, trace := trace, bayer := none, rgb := none }
  | some bayer =>
    let trace := trace ++ [Event.mmap_output out_size]
    match mmap out_size env.mmap_output with
    | none => some { status := 1, trace := trace, bayer := some bayer, rgb := none }
    | some rgb =>
      if c.tiff ≠ 0 then
        let r := put_tiff env.host rgb c.width c.height (u16 c.bpp)
        main_decode fuel env c outfile in_size out_size
          (trace ++ [Event.put_tiff c.width c.height (u16 c.bpp)]) bayer r.1 r.2
      else
        main_decode fuel env c outfile in_size out_size trace bayer rgb 0

/-- The part of `main` that makes or opens the output file.  For the name `-`
the call is `mkstemp("bayer2rgb-output.XXXXXX")`: `mkstemp` writes the name it
has chosen into its argument, here a string literal, and the process is
killed inside the call. -/
def main_output (fuel : Nat) (env : Env) (c : Config) (outfile : String) (trace : List Event) :
    Option Result :=
  if outfile = "-" then
    some { status := killed_by_SIGSEGV, trace := trace ++ [Event.mkstemp_output],
           bayer := none, rgb := none }
  else
    if env.open_output < 0 then
      some { status := 1, trace := trace ++ [Event.open_output outfile],
             bayer := none, rgb := none }
    else main_map fuel env c outfile (trace ++ [Event.open_output outfile])

/-- The function `main` from the parameter check that follows the option loop
to its end.  For the input name `-` the call is
`mkstemp("bayer2rgb-input.XXXXXX")` on a string literal, inside which the
process is killed, so that the copy from `stdin` is never begun.  The result
is `none` when the swap loop has not left within `fuel` tests of its
condition. -/
def main (fuel : Nat) (env : Env) (c : Config) : Option Result :=
  match c.infile, c.outfile with
  | some infile, some outfile =>
    if c.bpp = 0 ∨ c.width = 0 ∨ c.height = 0 then
      some { status := 1, trace := [], bayer := none, rgb := none }
    else if infile = "-" then
      some { status := killed_by_SIGSEGV, trace := [Event.mkstemp_input],
             bayer := none, rgb := none }
    else
      if env.open_input < 0 then
        some { status := 1, trace := [Event.open_input infile], bayer := none, rgb := none }
      else main_output fuel env c outfile [Event.open_input infile]
  | _, _ => some { status := 1, trace := [], bayer := none, rgb := none }

/-! ## Runs of `main` that reach the decoders -/

/-- Both files have names other than `-` and are opened. -/
def files_open (env : Env) (infile outfile : String) : Prop :=
  infile ≠ "-" ∧ outfile ≠ "-" ∧ 0 ≤ env.open_input ∧ 0 ≤ env.open_output

/-- Both mappings succeed, giving access to `bayer` and `rgb`: neither length
is 0 and the operating system grants both. -/
def maps_ready (env : Env) (c : Config) (bayer rgb : Mem) : Prop :=
  in_size_of env ≠ 0 ∧ env.mmap_input = some bayer
  ∧ out_size_of c ≠ 0 ∧ env.mmap_output = some rgb

/-- The swap loop is entered with the one size at which it is never left. -/
def swap_hangs (env : Env) (c : Config) : Prop :=
  c.bpp ≠ 8 ∧ c.swap = true ∧ in_size_of env = 4294967295

/-- The calls that decode or swap. -/
def Event.decodes : Event → Bool
  | Event.swap_bytes _ => true
  | Event.decoding_8bit _ _ _ _ _ => true
  | Event.decoding_16bit _ _ _ _ _ _ => true
  | _ => false

/-- The calls of a run of `main` up to the `switch(bpp)`, when both files are
open and mapped. -/
def setup_trace (env : Env) (c : Config) (infile outfile : String) : List Event :=
  [Event.open_input infile, Event.open_output outfile,
    Event.lseek_input, Event.ftruncate_output (out_size_of c),
    Event.mmap_input (in_size_of env), Event.mmap_output (out_size_of c)]
  ++ (if c.tiff ≠ 0 then [Event.put_tiff c.width c.height (u16 c.bpp)] else [])

/-- The calls of the `switch(bpp)` of `main`, when the swap loop is left. -/
def decode_trace (c : Config) (in_size rgb_start : Nat) : List Event :=
  if c.bpp = 8 then
    [Event.decoding_8bit rgb_start c.width c.height c.first_color c.method]
  else
    (if c.swap then [Event.swap_bytes (swap_offsets 0 ((in_size + in_size % 2) / 2))] else [])
    ++ [Event.decoding_16bit rgb_start c.width c.height c.first_color c.method c.bpp]

/-- The calls of a run of `main` after the decoder has returned, for an
output file with a name other than `-`. -/
def finish_trace (out_size : Nat) : List Event :=
  [Event.munmap_input, Event.msync_output out_size, Event.munmap_output, Event.fsync_output]

/-- An operating system on a little-endian host that opens and maps both
files, the input being `size` zero bytes long, with a library whose decoders
leave the output buffer as they find it. -/
def sample_env (size : Int) : Env :=
  { host := Endian.little
    open_input := 3
    open_output := 4
    lseek_end := size
    mmap_input := some (fun _ => 0)
    mmap_output := some (fun _ => 0)
    decoding_8bit := fun _ rgb _ _ _ _ _ => rgb
    decoding_16bit := fun _ rgb _ _ _ _ _ _ => rgb
    write_stdout_ok := true }

/-- The configuration after `-i in.raw -o out.rgb -w width -v height -b bpp`
with the given method, header size and swap flag. -/
def sample_config (width height bpp : Nat) (method : dc1394bayer_method_t) (tiff : Nat)
    (swap : Bool) : Config :=
  { infile := some "in.raw"
    outfile := some "out.rgb"
    width := width
    height := height
    bpp := bpp
    first_color := DC1394_COLOR_FILTER_RGGB
    method := method
    tiff := tiff
    swap := swap }

/-! ## Lemmas on memory and little-endian values -/

theorem bytes_eq_of_pointwise (m : Mem) (l : List Nat)
    (h : ∀ a, a < l.length → m a = l.getD a 0) : bytes m l.length = l := by
  apply List.ext_getElem
  · simp [bytes]
  · intro a h1 h2
    simp only [bytes, List.getElem_map, List.getElem_range]
    rw [h a h2, List.getD_eq_getElem _ _ h2]

theorem put_tiff_pointwise_little (rgb : Mem) (width height bpp : Nat) (a : Nat) (ha : a < 106) :
    (put_tiff Endian.little rgb width height bpp).1 a
      = (expected_header width height bpp (strip_byte_count width height bpp)).getD a 0 := by
  interval_cases a <;> exact rfl

theorem put_tiff_bytes_little (rgb : Mem) (width height bpp : Nat) :
    bytes (put_tiff Endian.little rgb width height bpp).1 106
      = expected_header width height bpp (strip_byte_count width height bpp) :=
  bytes_eq_of_pointwise (put_tiff Endian.little rgb width height bpp).1
    (expected_header width height bpp (strip_byte_count width height bpp))
    (fun a ha => put_tiff_pointwise_little rgb width height bpp a ha)

theorem put_tiff_outside (host : Endian) (rgb : Mem) (width height bpp a : Nat) (ha : 106 ≤ a) :
    (put_tiff host rgb width height bpp).1 a = rgb a := by
  simp only [put_tiff, memcpy, TIFF_HDR_SIZE, TIFF_HDR_NUM_ENTRY]
  repeat rw [if_neg (by omega)]

theorem le_bytes_value (v : Nat) :
    v % 256 + 256 * (v / 256 % 256) + 65536 * (v / 256 / 256 % 256)
      + 16777216 * (v / 256 / 256 / 256 % 256) = v % 4294967296 := by
  omega

theorem put_tiff_le32_little (rgb : Mem) (width height bpp : Nat) :
    le32 (put_tiff Endian.little rgb width height bpp).1 30 = width % 4294967296
    ∧ le32 (put_tiff Endian.little rgb width height bpp).1 42 = height % 4294967296
    ∧ le32 (put_tiff Endian.little rgb width height bpp).1 54 = bpp % 65536
    ∧ le32 (put_tiff Endian.little rgb width height bpp).1 102
        = strip_byte_count width height bpp := by
  have p := put_tiff_pointwise_little rgb width height bpp
  have w0 : (put_tiff Endian.little rgb width height bpp).1 30 = width % 256 := p 30 (by omega)
  have w1 : (put_tiff Endian.little rgb width height bpp).1 31 = width / 256 % 256 :=
    p 31 (by omega)
  have w2 : (put_tiff Endian.little rgb width height bpp).1 32 = width / 256 / 256 % 256 :=
    p 32 (by omega)
  have w3 : (put_tiff Endian.little rgb width height bpp).1 33
      = width / 256 / 256 / 256 % 256 := p 33 (by omega)
  have h0 : (put_tiff Endian.little rgb width height bpp).1 42 = height % 256 := p 42 (by omega)
  have h1 : (put_tiff Endian.little rgb width height bpp).1 43 = height / 256 % 256 :=
    p 43 (by omega)
  have h2 : (put_tiff Endian.little rgb width height bpp).1 44 = height / 256 / 256 % 256 :=
    p 44 (by omega)
  have h3 : (put_tiff Endian.little rgb width height bpp).1 45
      = height / 256 / 256 / 256 % 256 := p 45 (by omega)
  have b0 : (put_tiff Endian.little rgb width height bpp).1 54 = bpp % 256 := p 54 (by omega)
  have b1 : (put_tiff Endian.little rgb width height bpp).1 55 = bpp / 256 % 256 :=
    p 55 (by omega)
  have b2 : (put_tiff Endian.little rgb width height bpp).1 56 = 0 := p 56 (by omega)
  have b3 : (put_tiff Endian.little rgb width height bpp).1 57 = 0 := p 57 (by omega)
  have s0 : (put_tiff Endian.little rgb width height bpp).1 102
      = strip_byte_count width height bpp % 256 := p 102 (by omega)
  have s1 : (put_tiff Endian.little rgb width height bpp).1 103
      = strip_byte_count width height bpp / 256 % 256 := p 103 (by omega)
  have s2 : (put_tiff Endian.little rgb width height bpp).1 104
      = strip_byte_count width height bpp / 256 / 256 % 256 := p 104 (by omega)
  have s3 : (put_tiff Endian.little rgb width height bpp).1 105
      = strip_byte_count width height bpp / 256 / 256 / 256 % 256 := p 105 (by omega)
  have hs : strip_byte_count width height bpp < 4294967296 := by
    unfold strip_byte_count u32; omega
  unfold le32
  simp only [Nat.reduceAdd]
  rw [w0, w1, w2, w3, h0, h1, h2, h3, b0, b1, b2, b3, s0, s1, s2, s3]
  refine ⟨?_, ?_, ?_, ?_⟩ <;> omega

theorem strip_byte_count_eq (width height bpp : Nat) :
    strip_byte_count width height bpp = (width * height * (bpp / 8) * 3) % 4294967296 := by
  simp [strip_byte_count, u32, Nat.mul_mod, Nat.mod_mod]

/-! ## The TIFF header on a little-endian host -/

/-- C1: on a little-endian host `put_tiff` writes exactly 106 header bytes,
leaving every byte from offset 106 on as it was: bytes 0-3 are 49 49 2A 00,
bytes 4-7 hold 8, bytes 8-9 hold 8, the eight 12-byte entries carry the tags
0xFE, 0x100, 0x101, 0x102, 0x106, 0x111, 0x115, 0x117 in this order, their
value fields (entry bytes 8..11, little-endian) are 0, width, height, bpp, 2,
106, 3 and the strip byte count that the function computes, and the pointer
returned lies 106 bytes past the start, which is the StripOffsets value.  For
width 100 and height 50 the width field is 64 00 00 00 and the height field
is 32 00 00 00. -/
theorem put_tiff_header_layout (rgb : Mem) (width height bpp : Nat)
    (hw : width < 4294967296) (hh : height < 4294967296) (hb : bpp < 65536) :
    bytes (put_tiff Endian.little rgb width height bpp).1 106
        = expected_header width height bpp (strip_byte_count width height bpp)
    ∧ (∀ a, 106 ≤ a → (put_tiff Endian.little rgb width height bpp).1 a = rgb a)
    ∧ bytes (put_tiff Endian.little rgb width height bpp).1 4 = [0x49, 0x49, 0x2a, 0x00]
    ∧ le32 (put_tiff Endian.little rgb width height bpp).1 4 = 8
    ∧ le16 (put_tiff Endian.little rgb width height bpp).1 8 = 8
    ∧ (List.range 8).map (fun k => le16 (put_tiff Endian.little rgb width height bpp).1
          (10 + k * 12))
        = [0xfe, 0x100, 0x101, 0x102, 0x106, 0x111, 0x115, 0x117]
    ∧ le32 (put_tiff Endian.little rgb width height bpp).1 (10 + 0 * 12 + 8) = 0
    ∧ le32 (put_tiff Endian.little rgb width height bpp).1 (10 + 1 * 12 + 8) = width
    ∧ le32 (put_tiff Endian.little rgb width height bpp).1 (10 + 2 * 12 + 8) = height
    ∧ le32 (put_tiff Endian.little rgb width height bpp).1 (10 + 3 * 12 + 8) = bpp
    ∧ le32 (put_tiff Endian.little rgb width height bpp).1 (10 + 4 * 12 + 8) = 2
    ∧ le32 (put_tiff Endian.little rgb width height bpp).1 (10 + 5 * 12 + 8) = 106
    ∧ le32 (put_tiff Endian.little rgb width height bpp).1 (10 + 6 * 12 + 8) = 3
    ∧ le32 (put_tiff Endian.little rgb width height bpp).1 (10 + 7 * 12 + 8)
        = strip_byte_count width height bpp
    ∧ (put_tiff Endian.little rgb width height bpp).2 = 106
    ∧ le32 (put_tiff Endian.little rgb width height bpp).1 (10 + 5 * 12 + 8)
        = (put_tiff Endian.little rgb width height bpp).2
    ∧ field (put_tiff Endian.little rgb 100 50 8).1 30 4 = [0x64, 0x00, 0x00, 0x00]
    ∧ field (put_tiff Endian.little rgb 100 50 8).1 42 4 = [0x32, 0x00, 0x00, 0x00] := by
  obtain ⟨h1, h2, h3, h4⟩ := put_tiff_le32_little rgb width height bpp
  rw [Nat.mod_eq_of_lt hw] at h1
  rw [Nat.mod_eq_of_lt hh] at h2
  rw [Nat.mod_eq_of_lt hb] at h3
  refine ⟨put_tiff_bytes_little rgb width height bpp,
    fun a ha => put_tiff_outside Endian.little rgb width height bpp a ha,
    rfl, rfl, rfl, rfl, rfl, h1, h2, h3, rfl, rfl, rfl, h4, rfl, rfl, rfl, rfl⟩

theorem put_tiff_header_layout_witness :
    bytes (put_tiff Endian.little (fun _ => 0xff) 100 50 8).1 106
        = expected_header 100 50 8 15000
    ∧ le32 (put_tiff Endian.little (fun _ => 0xff) 100 50 8).1 30 = 100
    ∧ le32 (put_tiff Endian.little (fun _ => 0xff) 100 50 8).1 102 = 15000
    ∧ (put_tiff Endian.little (fun _ => 0xff) 100 50 8).1 106 = 0xff :=
  have h := put_tiff_header_layout (fun _ => 0xff) 100 50 8 (by decide) (by decide) (by decide)
  ⟨h.1, h.2.2.2.2.2.2.2.1, h.2.2.2.2.2.2.2.2.2.2.2.2.2.1, h.2.1 106 (by decide)⟩

/-- C2, as stated, fails: for width 65536, height 65536 and bpp 8 the four
bytes at 102..105 hold 0, while width*height*(bpp/8)*3 is 12884901888. -/
theorem strip_byte_count_wraps :
    le32 (put_tiff Endian.little (fun _ => 0) 65536 65536 8).1 102 = 0
    ∧ le32 (put_tiff Endian.little (fun _ => 0) 65536 65536 8).1 102
        ≠ 65536 * 65536 * (8 / 8) * 3 := by
  have h : le32 (put_tiff Endian.little (fun _ => 0) 65536 65536 8).1 102 = 0 := rfl
  exact ⟨h, by rw [h]; decide⟩

/-- C2, amended: on a little-endian host the StripByteCounts value in header
bytes 102..105, read as a little-endian 32-bit number, is
width*height*(bpp/8)*3 reduced modulo 2^32, the division being integer
division; it is the integer width*height*(bpp/8)*3 itself whenever that
product is below 2^32, and it is 15000 for width 100, height 50, bpp 8. -/
theorem put_tiff_strip_byte_count (rgb : Mem) (width height bpp : Nat) :
    le32 (put_tiff Endian.little rgb width height bpp).1 102
        = (width * height * (bpp / 8) * 3) % 4294967296
    ∧ (width * height * (bpp / 8) * 3 < 4294967296 →
        le32 (put_tiff Endian.little rgb width height bpp).1 102
          = width * height * (bpp / 8) * 3)
    ∧ le32 (put_tiff Endian.little rgb 100 50 8).1 102 = 15000 := by
  have key : ∀ w h b : Nat, le32 (put_tiff Endian.little rgb w h b).1 102
      = (w * h * (b / 8) * 3) % 4294967296 := by
    intro w h b
    rw [(put_tiff_le32_little rgb w h b).2.2.2, strip_byte_count_eq]
  refine ⟨key width height bpp, ?_, ?_⟩
  · intro hfit
    rw [key, Nat.mod_eq_of_lt hfit]
  · rw [key]

theorem put_tiff_strip_byte_count_witness :
    640 * 480 * (16 / 8) * 3 < 4294967296
    ∧ le32 (put_tiff Endian.little (fun _ => 0) 640 480 16).1 102 = 640 * 480 * (16 / 8) * 3 :=
  ⟨by decide, (put_tiff_strip_byte_count (fun _ => 0) 640 480 16).2.1 (by decide)⟩

/-! ## The TIFF header on a big-endian host -/

/-- C10 at its failing input: on a big-endian host, for width 100, height 50
and bpp 8, the six patched fields hold the big-endian object representations:
the entry count bytes are 00 08, the width field is 00 00 00 64, the height
field 00 00 00 32, the bit depth bytes 00 08, the strip offset bytes 00 6A
and the strip byte count field 00 00 3A 98.  Read as the little-endian
numbers that the marker 49 49 announces they are 2048, 1677721600, 838860800,
2048, 27136 and 2553937920, and the header differs from the one written on a
little-endian host. -/
theorem put_tiff_big_endian_host :
    field (put_tiff Endian.big (fun _ => 0) 100 50 8).1 0 4 = [0x49, 0x49, 0x2a, 0x00]
    ∧ field (put_tiff Endian.big (fun _ => 0) 100 50 8).1 8 2 = [0x00, 0x08]
    ∧ field (put_tiff Endian.big (fun _ => 0) 100 50 8).1 30 4 = [0x00, 0x00, 0x00, 0x64]
    ∧ field (put_tiff Endian.big (fun _ => 0) 100 50 8).1 42 4 = [0x00, 0x00, 0x00, 0x32]
    ∧ field (put_tiff Endian.big (fun _ => 0) 100 50 8).1 54 4 = [0x00, 0x08, 0x00, 0x00]
    ∧ field (put_tiff Endian.big (fun _ => 0) 100 50 8).1 78 4 = [0x00, 0x6a, 0x00, 0x00]
    ∧ field (put_tiff Endian.big (fun _ => 0) 100 50 8).1 102 4 = [0x00, 0x00, 0x3a, 0x98]
    ∧ le16 (put_tiff Endian.big (fun _ => 0) 100 50 8).1 8 = 2048
    ∧ le32 (put_tiff Endian.big (fun _ => 0) 100 50 8).1 30 = 1677721600
    ∧ le32 (put_tiff Endian.big (fun _ => 0) 100 50 8).1 42 = 838860800
    ∧ le32 (put_tiff Endian.big (fun _ => 0) 100 50 8).1 54 = 2048
    ∧ le32 (put_tiff Endian.big (fun _ => 0) 100 50 8).1 78 = 27136
    ∧ le32 (put_tiff Endian.big (fun _ => 0) 100 50 8).1 102 = 2553937920
    ∧ bytes (put_tiff Endian.big (fun _ => 0) 100 50 8).1 106
        ≠ bytes (put_tiff Endian.little (fun _ => 0) 100 50 8).1 106 := by
  refine ⟨rfl, rfl, rfl, rfl, rfl, rfl, rfl, rfl, rfl, rfl, rfl, rfl, rfl, ?_⟩
  intro h
  have h8 : (bytes (put_tiff Endian.big (fun _ => 0) 100 50 8).1 106).getD 8 0
      = (bytes (put_tiff Endian.little (fun _ => 0) 100 50 8).1 106).getD 8 0 := by rw [h]
  have hb : (bytes (put_tiff Endian.big (fun _ => 0) 100 50 8).1 106).getD 8 0 = 0 := rfl
  have hl : (bytes (put_tiff Endian.little (fun _ => 0) 100 50 8).1 106).getD 8 0 = 8 := rfl
  rw [hb, hl] at h8
  exact absurd h8 (by decide)

/-! ## The option decoders -/

/-- C9: `getMethod` maps each of NEAREST, SIMPLE, BILINEAR, HQLINEAR,
DOWNSAMPLE, EDGESENSE, VNG, AHD to its own enumerant and every other string
to BILINEAR; `getFirstColor` maps each of RGGB, GBRG, GRBG, BGGR to its own
enumerant and every other string to RGGB.  Both are total: an unrecognized
string yields the default together with one warning line, a recognized one
yields no warning. -/
theorem getMethod_getFirstColor_table (m f : String)
    (hm : m ∉ ["NEAREST", "SIMPLE", "BILINEAR", "HQLINEAR", "DOWNSAMPLE", "EDGESENSE", "VNG",
      "AHD"])
    (hf : f ∉ ["RGGB", "GBRG", "GRBG", "BGGR"]) :
    getMethod "NEAREST" = (DC1394_BAYER_METHOD_NEAREST, [])
    ∧ getMethod "SIMPLE" = (DC1394_BAYER_METHOD_SIMPLE, [])
    ∧ getMethod "BILINEAR" = (DC1394_BAYER_METHOD_BILINEAR, [])
    ∧ getMethod "HQLINEAR" = (DC1394_BAYER_METHOD_HQLINEAR, [])
    ∧ getMethod "DOWNSAMPLE" = (DC1394_BAYER_METHOD_DOWNSAMPLE, [])
    ∧ getMethod "EDGESENSE" = (DC1394_BAYER_METHOD_EDGESENSE, [])
    ∧ getMethod "VNG" = (DC1394_BAYER_METHOD_VNG, [])
    ∧ getMethod "AHD" = (DC1394_BAYER_METHOD_AHD, [])
    ∧ (getMethod m).1 = DC1394_BAYER_METHOD_BILINEAR
    ∧ (getMethod m).2.length = 1
    ∧ getFirstColor "RGGB" = (DC1394_COLOR_FILTER_RGGB, [])
    ∧ getFirstColor "GBRG" = (DC1394_COLOR_FILTER_GBRG, [])
    ∧ getFirstColor "GRBG" = (DC1394_COLOR_FILTER_GRBG, [])
    ∧ getFirstColor "BGGR" = (DC1394_COLOR_FILTER_BGGR, [])
    ∧ (getFirstColor f).1 = DC1394_COLOR_FILTER_RGGB
    ∧ (getFirstColor f).2.length = 1 := by
  simp only [List.mem_cons, List.mem_singleton, List.not_mem_nil, or_false, not_or] at hm hf
  obtain ⟨m1, m2, m3, m4, m5, m6, m7, m8⟩ := hm
  obtain ⟨f1, f2, f3, f4⟩ := hf
  refine ⟨by decide, by decide, by decide, by decide, by decide, by decide, by decide,
    by decide, ?_, ?_, by decide, by decide, by decide, by decide, ?_, ?_⟩
  · simp [getMethod, m1, m2, m3, m4, m5, m6, m7, m8]
  · simp [getMethod, m1, m2, m3, m4, m5, m6, m7, m8]
  · simp [getFirstColor, f1, f2, f3, f4]
  · simp [getFirstColor, f1, f2, f3, f4]

theorem getMethod_getFirstColor_table_witness :
    (getMethod "nearest").1 = DC1394_BAYER_METHOD_BILINEAR
    ∧ (getFirstColor "").1 = DC1394_COLOR_FILTER_RGGB :=
  have h := getMethod_getFirstColor_table "nearest" "" (by decide) (by decide)
  ⟨h.2.2.2.2.2.2.2.2.1, h.2.2.2.2.2.2.2.2.2.2.2.2.2.2.1⟩

/-! ## The byte-swap loop -/

theorem swap_loop_returns (n : Nat) (hn : n + 1 < 4294967296) :
    ∀ (fuel i : Nat) (s : SwapState), i % 2 = 0 → i ≤ n + n % 2 →
      (n + n % 2 - i) / 2 < fuel →
      swap_loop fuel n i s = some
        { bayer := fun a => if i ≤ a ∧ a < n + n % 2 then
              (if a % 2 = 0 then s.bayer (a + 1) else s.bayer (a - 1)) else s.bayer a,
          touched := s.touched ++ swap_offsets i ((n + n % 2 - i) / 2) } := by
  intro fuel
  induction fuel with
  | zero => intro i s _ _ h; omega
  | succ fuel ih =>
    intro i s hi hle hfuel
    by_cases h : i < n
    · have hu : u32 (i + 2) = i + 2 := by unfold u32; omega
      have hk : (n + n % 2 - i) / 2 = (n + n % 2 - (i + 2)) / 2 + 1 := by omega
      rw [swap_loop, if_pos h, hu, ih (i + 2) (swap_body s i) (by omega) (by omega) (by omega),
        hk]
      congr 2
      · funext a
        simp only [swap_body, store]
        split_ifs <;> first | rfl | omega | (congr 1; omega)
      · simp [swap_body, swap_offsets]
    · have hi2 : i = n + n % 2 := by omega
      rw [swap_loop, if_neg h]
      subst hi2
      cases s with
      | mk b t =>
        simp only [swap_offsets, Nat.sub_self, Nat.zero_div, List.append_nil, Option.some.injEq,
          SwapState.mk.injEq, and_true]
        funext a
        rw [if_neg (by omega)]

theorem swap_pass_returns (fuel n : Nat) (bayer : Mem) (hn : n + 1 < 4294967296)
    (hfuel : n / 2 + 1 < fuel) :
    swap_pass fuel n bayer
      = some { bayer := swapped n bayer, touched := swap_offsets 0 ((n + n % 2) / 2) } := by
  rw [swap_pass, swap_loop_returns n hn fuel 0 _ (by decide) (by omega) (by omega)]
  simp only [Nat.zero_le, true_and, Nat.sub_zero, List.nil_append]
  rfl

theorem swapped_swapped (n : Nat) (m : Mem) : swapped n (swapped n m) = m := by
  funext a
  simp only [swapped]
  split_ifs <;> first | rfl | omega | (congr 1; omega)

theorem swap_loop_never_returns :
    ∀ (fuel i : Nat) (s : SwapState), i % 2 = 0 → i < 4294967296 →
      swap_loop fuel 4294967295 i s = none := by
  intro fuel
  induction fuel with
  | zero => intro i s _ _; rfl
  | succ fuel ih =>
    intro i s hi hlt
    have h : i < 4294967295 := by omega
    rw [swap_loop, if_pos h]
    exact ih (u32 (i + 2)) (swap_body s i) (by unfold u32; omega) (by unfold u32; omega)

theorem swap_offsets_bound :
    ∀ (k i a : Nat), a ∈ swap_offsets i k → i ≤ a ∧ a < i + 2 * k := by
  intro k
  induction k with
  | zero => intro i a h; simp [swap_offsets] at h
  | succ k ih =>
    intro i a h
    simp only [swap_offsets, List.cons_append, List.nil_append, List.mem_cons] at h
    rcases h with h | h | h | h | h
    · omega
    · omega
    · omega
    · omega
    · have := ih (i + 2) a h
      omega

/-- On an input of even size below 2^32 the swap pass returns, dereferences
only offsets below `in_size`, exchanges the two bytes of every sample and
leaves the bytes from `in_size` on alone. -/
theorem swap_pass_even_size (fuel in_size : Nat) (bayer : Mem) (heven : in_size % 2 = 0)
    (hn : in_size < 4294967296) (hfuel : in_size / 2 + 1 < fuel) :
    ∃ s, swap_pass fuel in_size bayer = some s
      ∧ (∀ a ∈ s.touched, a < in_size)
      ∧ (∀ k, 2 * k + 1 < in_size →
          s.bayer (2 * k) = bayer (2 * k + 1) ∧ s.bayer (2 * k + 1) = bayer (2 * k))
      ∧ (∀ a, in_size ≤ a → s.bayer a = bayer a) := by
  refine ⟨_, swap_pass_returns fuel in_size bayer (by omega) hfuel, ?_, ?_, ?_⟩
  · intro a ha
    have := swap_offsets_bound _ _ _ ha
    omega
  · intro k hk
    simp only [swapped]
    constructor
    · rw [if_pos (by omega), if_pos (by omega)]
    · rw [if_pos (by omega), if_neg (by omega)]
      congr 1
  · intro a ha
    simp only [swapped]
    rw [if_neg (by omega)]

/-- C3 at its failing input, and away from it: for `in_size` 4294967295 the
counter of the swap loop goes from 4294967294 back to 0, so the loop is never
left, whatever the number of tests allowed and whatever the buffer holds; for
every smaller `in_size` the pass returns, and a second pass over its result
returns the original buffer, byte for byte. -/
theorem swap_pass_twice (fuel in_size : Nat) (bayer : Mem) (hn : in_size < 4294967295)
    (hfuel : in_size / 2 + 1 < fuel) :
    (∀ (more : Nat) (b : Mem), swap_pass more 4294967295 b = none)
    ∧ ∃ s1 s2, swap_pass fuel in_size bayer = some s1
        ∧ swap_pass fuel in_size s1.bayer = some s2 ∧ s2.bayer = bayer := by
  refine ⟨fun more b => swap_loop_never_returns more 0 _ (by decide) (by decide), ?_⟩
  refine ⟨_, _, swap_pass_returns fuel in_size bayer (by omega) hfuel,
    swap_pass_returns fuel in_size _ (by omega) hfuel, ?_⟩
  exact swapped_swapped in_size bayer

theorem swap_pass_twice_witness :
    (∀ (more : Nat) (b : Mem), swap_pass more 4294967295 b = none)
    ∧ ∃ s1 s2, swap_pass 4 4 (fun a => a) = some s1
        ∧ swap_pass 4 4 s1.bayer = some s2 ∧ s2.bayer = fun a => a :=
  swap_pass_twice 4 4 (fun a => a) (by decide) (by decide)

/-- C4 at its failing inputs: on a raster of the three bytes 11 22 33 (with a
zero byte behind it) the swap loop dereferences the offsets 0, 1, 0, 1, 2, 3,
2, 3, the last pair reaching offset 3 = `in_size`; it leaves 22 11 00 in the
raster and 33 at offset 3.  For `in_size` 4294967295 the loop is never
left. -/
theorem swap_pass_odd_size :
    (swap_pass 3 3 (fun a => [0x11, 0x22, 0x33].getD a 0)).map
        (fun s => (s.touched, bytes s.bayer 4))
      = some ([0, 1, 0, 1, 2, 3, 2, 3], [0x22, 0x11, 0x00, 0x33])
    ∧ (∀ (fuel : Nat) (b : Mem), swap_pass fuel 4294967295 b = none) :=
  ⟨by decide, fun fuel b => swap_loop_never_returns fuel 0 _ (by decide) (by decide)⟩

/-! ## The driver -/

theorem main_finish_eq (env : Env) (outfile : String) (out_size : Nat) (trace : List Event)
    (bayer rgb : Mem) (ho : outfile ≠ "-") :
    main_finish env outfile out_size trace bayer rgb
      = { status := 0, trace := trace ++ finish_trace out_size,
          bayer := some bayer, rgb := some rgb } := by
  unfold main_finish finish_trace
  simp [ho]

theorem main_reaches_map (fuel : Nat) (env : Env) (c : Config) (infile outfile : String)
    (hin : c.infile = some infile) (hout : c.outfile = some outfile)
    (hb : c.bpp ≠ 0) (hw : c.width ≠ 0) (hh : c.height ≠ 0)
    (hopen : files_open env infile outfile) :
    main fuel env c
      = main_map fuel env c outfile [Event.open_input infile, Event.open_output outfile] := by
  obtain ⟨hi, ho, h1, h2⟩ := hopen
  unfold main
  rw [hin, hout]
  simp [hb, hw, hh, hi, ho, main_output, not_lt.mpr h1, not_lt.mpr h2]

theorem main_reaches_decode (fuel : Nat) (env : Env) (c : Config) (infile outfile : String)
    (bayer rgb : Mem) (hin : c.infile = some infile) (hout : c.outfile = some outfile)
    (hb : c.bpp ≠ 0) (hw : c.width ≠ 0) (hh : c.height ≠ 0)
    (hopen : files_open env infile outfile) (hmaps : maps_ready env c bayer rgb) :
    main fuel env c
      = main_decode fuel env c outfile (in_size_of env) (out_size_of c)
          (setup_trace env c infile outfile) bayer
          (if c.tiff ≠ 0 then (put_tiff env.host rgb c.width c.height (u16 c.bpp)).1 else rgb)
          (if c.tiff ≠ 0 then 106 else 0) := by
  rw [main_reaches_map fuel env c infile outfile hin hout hb hw hh hopen]
  obtain ⟨h1, h2, h3, h4⟩ := hmaps
  by_cases ht : c.tiff = 0 <;>
    simp [ht, main_map, mmap, setup_trace, h1, h2, h3, h4, put_tiff, TIFF_HDR_SIZE,
      TIFF_HDR_NUM_ENTRY]

theorem in_size_of_lt (env : Env) : in_size_of env < 4294967296 := by
  unfold in_size_of
  omega

theorem main_decode_eq (fuel : Nat) (env : Env) (c : Config) (outfile : String)
    (in_size out_size : Nat) (trace : List Event) (bayer rgb : Mem) (rgb_start : Nat)
    (ho : outfile ≠ "-")
    (hloop : c.bpp ≠ 8 → c.swap = true → in_size + 1 < 4294967296)
    (hfuel : in_size / 2 + 1 < fuel) :
    ∃ r, main_decode fuel env c outfile in_size out_size trace bayer rgb rgb_start = some r
      ∧ r.status = 0
      ∧ r.trace = trace ++ decode_trace c in_size rgb_start ++ finish_trace out_size
      ∧ r.bayer = some (if c.bpp ≠ 8 ∧ c.swap = true then swapped in_size bayer else bayer) := by
  unfold main_decode decode_trace
  by_cases h8 : c.bpp = 8
  · simp [h8, main_finish_eq, ho]
  · cases hs : c.swap
    · simp [h8, main_finish_eq, ho]
    · simp [h8, main_finish_eq, ho, swap_pass_returns fuel in_size bayer (hloop h8 hs) hfuel]

theorem main_runs (fuel : Nat) (env : Env) (c : Config) (infile outfile : String)
    (bayer rgb : Mem) (hin : c.infile = some infile) (hout : c.outfile = some outfile)
    (hb : c.bpp ≠ 0) (hw : c.width ≠ 0) (hh : c.height ≠ 0)
    (hopen : files_open env infile outfile) (hmaps : maps_ready env c bayer rgb)
    (hloop : ¬ swap_hangs env c) (hfuel : in_size_of env / 2 + 1 < fuel) :
    ∃ r, main fuel env c = some r
      ∧ r.status = 0
      ∧ r.trace = setup_trace env c infile outfile
          ++ decode_trace c (in_size_of env) (if c.tiff ≠ 0 then 106 else 0)
          ++ finish_trace (out_size_of c)
      ∧ r.bayer = some (if c.bpp ≠ 8 ∧ c.swap = true then swapped (in_size_of env) bayer
          else bayer) := by
  rw [main_reaches_decode fuel env c infile outfile bayer rgb hin hout hb hw hh hopen hmaps]
  have hlt := in_size_of_lt env
  refine main_decode_eq fuel env c outfile _ _ _ _ _ _ hopen.2.1 ?_ hfuel
  intro h8 hs
  have : in_size_of env ≠ 4294967295 := fun h => hloop ⟨h8, hs, h⟩
  omega

theorem main_never_returns (fuel : Nat) (env : Env) (c : Config) (infile outfile : String)
    (bayer rgb : Mem) (hin : c.infile = some infile) (hout : c.outfile = some outfile)
    (hb : c.bpp ≠ 0) (hw : c.width ≠ 0) (hh : c.height ≠ 0)
    (hopen : files_open env infile outfile) (hmaps : maps_ready env c bayer rgb)
    (hloop : swap_hangs env c) :
    main fuel env c = none := by
  rw [main_reaches_decode fuel env c infile outfile bayer rgb hin hout hb hw hh hopen hmaps]
  obtain ⟨h8, hs, hsz⟩ := hloop
  unfold main_decode
  rw [if_neg h8, if_pos hs, hsz, swap_pass,
    swap_loop_never_returns fuel 0 _ (by decide) (by decide)]

theorem main_map_refused (fuel : Nat) (env : Env) (c : Config) (infile outfile : String)
    (hin : c.infile = some infile) (hout : c.outfile = some outfile)
    (hb : c.bpp ≠ 0) (hw : c.width ≠ 0) (hh : c.height ≠ 0)
    (hopen : files_open env infile outfile)
    (hzero : in_size_of env = 0 ∨ out_size_of c = 0) :
    ∃ r, main fuel env c = some r ∧ r.status = 1
      ∧ Event.ftruncate_output (out_size_of c) ∈ r.trace
      ∧ r.rgb = none ∧ ∀ e ∈ r.trace, e.decodes = false := by
  rw [main_reaches_map fuel env c infile outfile hin hout hb hw hh hopen]
  unfold main_map
  by_cases hi : in_size_of env = 0
  · simp [mmap, hi, Event.decodes]
  · have ho : out_size_of c = 0 := by tauto
    cases hm : env.mmap_input with
    | none => simp [mmap, hi, hm, Event.decodes]
    | some bayer => simp [mmap, hi, hm, ho, Event.decodes]

/-- C6: when width, height or bpp is 0 after the option loop, `main` returns
1 without having made any call: no file is opened, sized, mapped or written,
and no buffer exists. -/
theorem main_rejects_zero_parameter (fuel : Nat) (env : Env) (c : Config)
    (hz : c.width = 0 ∨ c.height = 0 ∨ c.bpp = 0) :
    main fuel env c = some { status := 1, trace := [], bayer := none, rgb := none } := by
  unfold main
  have h : c.bpp = 0 ∨ c.width = 0 ∨ c.height = 0 := by tauto
  cases c.infile <;> cases c.outfile <;> simp [h]

theorem main_rejects_zero_parameter_witness :
    main 0 (sample_env 16) (sample_config 4 4 0 DC1394_BAYER_METHOD_BILINEAR 106 true)
      = some { status := 1, trace := [], bayer := none, rgb := none } :=
  main_rejects_zero_parameter 0 (sample_env 16)
    (sample_config 4 4 0 DC1394_BAYER_METHOD_BILINEAR 106 true) (Or.inr (Or.inr rfl))

/-- C7, as stated, fails: with bpp 12 on a 2x2 input of 8 bytes `main` calls
the 16-bit decoder with 12 bits and returns 0. -/
theorem main_accepts_twelve_bits :
    (main 0 (sample_env 8) (sample_config 2 2 12 DC1394_BAYER_METHOD_BILINEAR 0 false)).map
        (fun r => (r.status, r.trace))
      = some (0, [Event.open_input "in.raw", Event.open_output "out.rgb", Event.lseek_input,
          Event.ftruncate_output 12, Event.mmap_input 8, Event.mmap_output 12,
          Event.decoding_16bit 0 2 2 DC1394_COLOR_FILTER_RGGB DC1394_BAYER_METHOD_BILINEAR 12,
          Event.munmap_input, Event.msync_output 12, Event.munmap_output,
          Event.fsync_output]) := by
  decide

/-- C8, as stated, fails: on a one-byte input for a 2x2 image of 8-bit samples,
which needs four bytes, `main` calls the 8-bit decoder and returns 0. -/
theorem main_decodes_short_input :
    in_size_of (sample_env 1) < 2 * 2 * (8 / 8)
    ∧ (main 0 (sample_env 1) (sample_config 2 2 8 DC1394_BAYER_METHOD_BILINEAR 0 false)).map
        (fun r => (r.status, r.trace))
      = some (0, [Event.open_input "in.raw", Event.open_output "out.rgb", Event.lseek_input,
          Event.ftruncate_output 12, Event.mmap_input 1, Event.mmap_output 12,
          Event.decoding_8bit 0 2 2 DC1394_COLOR_FILTER_RGGB DC1394_BAYER_METHOD_BILINEAR,
          Event.munmap_input, Event.msync_output 12, Event.munmap_output,
          Event.fsync_output]) := by
  decide

/-- C5, as stated, fails: for DOWNSAMPLE on a 4x4 input of 8-bit samples with a
header, `main` sizes and maps the output at 154 bytes, not at
106 + (4/2)*(4/2)*3*(8/8) = 118, and the header it writes gives width 4 and
height 4, not 2 and 2. -/
theorem main_downsample_full_size :
    (main 0 (sample_env 16) (sample_config 4 4 8 DC1394_BAYER_METHOD_DOWNSAMPLE 106 false)).map
        (fun r => (r.status, r.trace, r.rgb.map (fun m => (le32 m 30, le32 m 42))))
      = some (0, [Event.open_input "in.raw", Event.open_output "out.rgb", Event.lseek_input,
          Event.ftruncate_output 154, Event.mmap_input 16, Event.mmap_output 154,
          Event.put_tiff 4 4 8,
          Event.decoding_8bit 106 4 4 DC1394_COLOR_FILTER_RGGB DC1394_BAYER_METHOD_DOWNSAMPLE,
          Event.munmap_input, Event.msync_output 154, Event.munmap_output,
          Event.fsync_output], some (4, 4))
    ∧ 154 ≠ 106 + (4 / 2) * (4 / 2) * 3 * (8 / 8)
    ∧ 4 ≠ 4 / 2 := by
  decide

theorem out_size_of_eq (c : Config) :
    out_size_of c = (c.tiff + c.width * c.height * 3 * (c.bpp / 8)) % 4294967296 := by
  have h : c.tiff + c.width * c.height * 3 * (c.bpp / 8)
      = c.width * c.height * (c.bpp / 8) * 3 + c.tiff := by ring
  rw [h]
  simp [out_size_of, u32, Nat.mul_mod, Nat.add_mod, Nat.mod_mod]

/-- C5, amended: for every method, DOWNSAMPLE included, take a run of `main`
that passes the parameter check, whose input and output files have names
other than `-` and are opened and mapped (so neither `in_size` nor `out_size`
is 0), and whose swap loop, if entered, is left (it is not left only for
`in_size` 4294967295).  The run sizes and maps the output at
(tiff + width*height*3*(bpp/8)) modulo 2^32 bytes and at no other size, where
tiff is 106 if a header is requested and 0 otherwise; that is
tiff + width*height*3*(bpp/8) itself when this is below 2^32.  When a header
is requested the one call of `put_tiff` gets the input width and height, and
on a little-endian host the ImageWidth and ImageLength values it writes are
the input width and height: nothing is halved for DOWNSAMPLE. -/
theorem main_output_size (fuel : Nat) (env : Env) (c : Config) (infile outfile : String)
    (bayer rgb : Mem) (hin : c.infile = some infile) (hout : c.outfile = some outfile)
    (hb : c.bpp ≠ 0) (hw : c.width ≠ 0) (hh : c.height ≠ 0)
    (hwlt : c.width < 4294967296) (hhlt : c.height < 4294967296)
    (hopen : files_open env infile outfile) (hmaps : maps_ready env c bayer rgb)
    (hloop : ¬ swap_hangs env c) (hfuel : in_size_of env / 2 + 1 < fuel) :
    ∃ r, main fuel env c = some r
      ∧ Event.ftruncate_output (out_size_of c) ∈ r.trace
      ∧ Event.mmap_output (out_size_of c) ∈ r.trace
      ∧ (∀ n, Event.ftruncate_output n ∈ r.trace ∨ Event.mmap_output n ∈ r.trace →
          n = out_size_of c)
      ∧ out_size_of c = (c.tiff + c.width * c.height * 3 * (c.bpp / 8)) % 4294967296
      ∧ (c.tiff + c.width * c.height * 3 * (c.bpp / 8) < 4294967296 →
          out_size_of c = c.tiff + c.width * c.height * 3 * (c.bpp / 8))
      ∧ (c.tiff ≠ 0 → Event.put_tiff c.width c.height (u16 c.bpp) ∈ r.trace)
      ∧ (∀ w h b, Event.put_tiff w h b ∈ r.trace → c.tiff ≠ 0 ∧ w = c.width ∧ h = c.height)
      ∧ le32 (put_tiff Endian.little rgb c.width c.height (u16 c.bpp)).1 30 = c.width
      ∧ le32 (put_tiff Endian.little rgb c.width c.height (u16 c.bpp)).1 42 = c.height := by
  obtain ⟨r, hr, -, htrace, -⟩ :=
    main_runs fuel env c infile outfile bayer rgb hin hout hb hw hh hopen hmaps hloop hfuel
  obtain ⟨h1, h2, -, -⟩ := put_tiff_le32_little rgb c.width c.height (u16 c.bpp)
  rw [Nat.mod_eq_of_lt hwlt] at h1
  rw [Nat.mod_eq_of_lt hhlt] at h2
  refine ⟨r, hr, ?_, ?_, ?_, out_size_of_eq c, ?_, ?_, ?_, h1, h2⟩
  · rw [htrace]; simp [setup_trace]
  · rw [htrace]; simp [setup_trace]
  · intro n hn
    rw [htrace] at hn
    simp only [setup_trace, decode_trace, finish_trace] at hn
    split_ifs at hn <;> simp at hn <;> omega
  · intro hfit
    rw [out_size_of_eq, Nat.mod_eq_of_lt hfit]
  · intro ht
    rw [htrace]; simp [setup_trace, ht]
  · intro w h b hmem
    rw [htrace] at hmem
    simp only [setup_trace, decode_trace, finish_trace] at hmem
    split_ifs at hmem <;> simp at hmem <;> simp_all

theorem main_output_size_witness :
    ∃ r, main 10 (sample_env 16)
        (sample_config 4 4 8 DC1394_BAYER_METHOD_DOWNSAMPLE 106 false) = some r
      ∧ Event.ftruncate_output 154 ∈ r.trace
      ∧ Event.put_tiff 4 4 8 ∈ r.trace := by
  have hfuel : in_size_of (sample_env 16) / 2 + 1 < 10 := by decide
  have hloop : ¬ swap_hangs (sample_env 16)
      (sample_config 4 4 8 DC1394_BAYER_METHOD_DOWNSAMPLE 106 false) := fun h => h.1 rfl
  obtain ⟨r, hr, h1, -, -, -, -, h2, -⟩ :=
    main_output_size 10 (sample_env 16)
      (sample_config 4 4 8 DC1394_BAYER_METHOD_DOWNSAMPLE 106 false) "in.raw" "out.rgb"
      (fun _ => 0) (fun _ => 0) rfl rfl (by decide) (by decide) (by decide) (by decide)
      (by decide) ⟨by decide, by decide, by decide, by decide⟩
      ⟨by decide, rfl, by decide, rfl⟩ hloop hfuel
  exact ⟨r, hr, h1, h2 (by decide)⟩

/-- C7, amended: a bit depth of 0 is rejected by the parameter check, before
any call.  No other bit depth is rejected for being neither 8 nor 16.  Take a
run with nonzero width and height whose input and output files have names
other than `-` and are opened, and a bit depth other than 0 and 8, such as 12
or 32.  If both files are mapped (so neither `in_size` nor `out_size` is 0)
and the swap loop, when entered, is left, the run takes the 16-bit branch,
that is the swap pass when requested, followed at once by the 16-bit decoder
with that bit depth; the 8-bit decoder is not called and `main` returns 0.
If both files are mapped, the swap is requested and `in_size` is 4294967295,
the swap loop is never left and no decoder is called.  If `in_size` or
`out_size` is 0, as `out_size` is for every bit depth from 1 to 7 without a
header, the mapping is refused and `main` returns 1 after it has truncated
the output file, without a swap pass or a decoder call. -/
theorem main_bit_depth_dispatch (fuel : Nat) (env : Env) (c : Config)
    (infile outfile : String) (bayer rgb : Mem)
    (hin : c.infile = some infile) (hout : c.outfile = some outfile)
    (hw : c.width ≠ 0) (hh : c.height ≠ 0)
    (hopen : files_open env infile outfile) :
    (c.bpp = 0 →
      main fuel env c = some { status := 1, trace := [], bayer := none, rgb := none })
    ∧ (c.bpp ≠ 0 → c.bpp ≠ 8 → maps_ready env c bayer rgb → ¬ swap_hangs env c →
        in_size_of env / 2 + 1 < fuel →
      ∃ r, main fuel env c = some r
        ∧ r.status = 0
        ∧ r.trace = setup_trace env c infile outfile
            ++ ((if c.swap then
                  [Event.swap_bytes
                    (swap_offsets 0 ((in_size_of env + in_size_of env % 2) / 2))]
                else [])
              ++ [Event.decoding_16bit (if c.tiff ≠ 0 then 106 else 0) c.width c.height
                    c.first_color c.method c.bpp])
            ++ finish_trace (out_size_of c)
        ∧ (∀ rgb_start w h tile method,
            Event.decoding_8bit rgb_start w h tile method ∉ r.trace))
    ∧ (c.bpp ≠ 0 → maps_ready env c bayer rgb → swap_hangs env c →
        ∀ more, main more env c = none)
    ∧ (c.bpp ≠ 0 → in_size_of env = 0 ∨ out_size_of c = 0 →
      ∃ r, main fuel env c = some r ∧ r.status = 1
        ∧ Event.ftruncate_output (out_size_of c) ∈ r.trace
        ∧ r.rgb = none ∧ ∀ e ∈ r.trace, e.decodes = false)
    ∧ (c.bpp < 8 → c.tiff = 0 → out_size_of c = 0) := by
  refine ⟨?_, ?_, ?_, ?_, ?_⟩
  · intro h0
    unfold main
    rw [hin, hout]
    simp [h0]
  · intro hb h8 hmaps hloop hfuel
    obtain ⟨r, hr, hstatus, htrace, -⟩ :=
      main_runs fuel env c infile outfile bayer rgb hin hout hb hw hh hopen hmaps hloop hfuel
    have hd : decode_trace c (in_size_of env) (if c.tiff ≠ 0 then 106 else 0)
        = (if c.swap then
              [Event.swap_bytes (swap_offsets 0 ((in_size_of env + in_size_of env % 2) / 2))]
            else [])
          ++ [Event.decoding_16bit (if c.tiff ≠ 0 then 106 else 0) c.width c.height
                c.first_color c.method c.bpp] := by
      unfold decode_trace
      rw [if_neg h8]
    rw [hd] at htrace
    refine ⟨r, hr, hstatus, htrace, ?_⟩
    intro rgb_start w h tile method hmem
    rw [htrace] at hmem
    simp only [setup_trace, finish_trace] at hmem
    split_ifs at hmem <;> simp at hmem
  · intro hb hmaps hloop more
    exact main_never_returns more env c infile outfile bayer rgb hin hout hb hw hh hopen hmaps
      hloop
  · intro hb hzero
    exact main_map_refused fuel env c infile outfile hin hout hb hw hh hopen hzero
  · intro hlt ht
    have hdiv : c.bpp / 8 = 0 := by omega
    simp [out_size_of, u32, hdiv, ht]

theorem main_bit_depth_dispatch_witness :
    ∃ r, main 10 (sample_env 8) (sample_config 2 2 12 DC1394_BAYER_METHOD_VNG 0 true)
        = some r
      ∧ r.status = 0
      ∧ r.trace = [Event.open_input "in.raw", Event.open_output "out.rgb", Event.lseek_input,
          Event.ftruncate_output 12, Event.mmap_input 8, Event.mmap_output 12,
          Event.swap_bytes [0, 1, 0, 1, 2, 3, 2, 3, 4, 5, 4, 5, 6, 7, 6, 7],
          Event.decoding_16bit 0 2 2 DC1394_COLOR_FILTER_RGGB DC1394_BAYER_METHOD_VNG 12,
          Event.munmap_input, Event.msync_output 12, Event.munmap_output,
          Event.fsync_output] := by
  have hfuel : in_size_of (sample_env 8) / 2 + 1 < 10 := by decide
  have hloop : ¬ swap_hangs (sample_env 8)
      (sample_config 2 2 12 DC1394_BAYER_METHOD_VNG 0 true) :=
    fun h => absurd h.2.2 (by decide)
  obtain ⟨r, hr, hstatus, htrace, -⟩ :=
    (main_bit_depth_dispatch 10 (sample_env 8)
      (sample_config 2 2 12 DC1394_BAYER_METHOD_VNG 0 true) "in.raw" "out.rgb"
      (fun _ => 0) (fun _ => 0) rfl rfl (by decide) (by decide)
      ⟨by decide, by decide, by decide, by decide⟩).2.1 (by decide) (by decide)
      ⟨by decide, rfl, by decide, rfl⟩ hloop hfuel
  exact ⟨r, hr, hstatus, htrace⟩

/-- C8, amended: `main` does not compare `in_size` with width*height*(bpp/8).
Take a run that passes the parameter check and whose input and output files
have names other than `-` and are opened.  An empty input is turned away, not
by a size check but because a mapping of 0 bytes is refused: `main` returns 1
without a swap pass or a decoder call.  For every other input, whatever its
size and so also when it is smaller than width*height*(bpp/8) bytes, if both
files are mapped (so `out_size` is not 0 either) and the swap loop, when
entered, is left, the run is not rejected: it calls the 8-bit decoder when bpp
is 8, and otherwise the swap pass when requested and the 16-bit decoder, and,
the decoder call returning, `main` returns 0.  If both files are mapped, bpp
is not 8, the swap is requested and `in_size` is 4294967295, the swap loop is
never left and no decoder is called. -/
theorem main_short_input (fuel : Nat) (env : Env) (c : Config)
    (infile outfile : String) (bayer rgb : Mem)
    (hin : c.infile = some infile) (hout : c.outfile = some outfile)
    (hb : c.bpp ≠ 0) (hw : c.width ≠ 0) (hh : c.height ≠ 0)
    (hopen : files_open env infile outfile) :
    (in_size_of env = 0 →
      ∃ r, main fuel env c = some r ∧ r.status = 1 ∧ ∀ e ∈ r.trace, e.decodes = false)
    ∧ (maps_ready env c bayer rgb → ¬ swap_hangs env c → in_size_of env / 2 + 1 < fuel →
      ∃ r, main fuel env c = some r
        ∧ r.status = 0
        ∧ (c.bpp = 8 →
            Event.decoding_8bit (if c.tiff ≠ 0 then 106 else 0) c.width c.height
              c.first_color c.method ∈ r.trace)
        ∧ (c.bpp ≠ 8 →
            Event.decoding_16bit (if c.tiff ≠ 0 then 106 else 0) c.width c.height
              c.first_color c.method c.bpp ∈ r.trace)
        ∧ (c.bpp ≠ 8 → c.swap = true →
            Event.swap_bytes (swap_offsets 0 ((in_size_of env + in_size_of env % 2) / 2))
              ∈ r.trace))
    ∧ (maps_ready env c bayer rgb → swap_hangs env c → ∀ more, main more env c = none) := by
  refine ⟨?_, ?_, ?_⟩
  · intro hzero
    obtain ⟨r, hr, hstatus, -, -, hdec⟩ :=
      main_map_refused fuel env c infile outfile hin hout hb hw hh hopen (Or.inl hzero)
    exact ⟨r, hr, hstatus, hdec⟩
  · intro hmaps hloop hfuel
    obtain ⟨r, hr, hstatus, htrace, -⟩ :=
      main_runs fuel env c infile outfile bayer rgb hin hout hb hw hh hopen hmaps hloop hfuel
    refine ⟨r, hr, hstatus, ?_, ?_, ?_⟩
    · intro h8
      rw [htrace]; simp [decode_trace, h8]
    · intro h8
      rw [htrace]; simp [decode_trace, h8]
    · intro h8 hs
      rw [htrace]; simp [decode_trace, h8, hs]
  · intro hmaps hloop more
    exact main_never_returns more env c infile outfile bayer rgb hin hout hb hw hh hopen hmaps
      hloop

theorem main_short_input_witness :
    in_size_of (sample_env 1) < 2 * 2 * (8 / 8)
    ∧ ∃ r, main 10 (sample_env 1) (sample_config 2 2 8 DC1394_BAYER_METHOD_AHD 0 false)
        = some r
      ∧ r.status = 0
      ∧ Event.decoding_8bit 0 2 2 DC1394_COLOR_FILTER_RGGB DC1394_BAYER_METHOD_AHD
          ∈ r.trace := by
  have hfuel : in_size_of (sample_env 1) / 2 + 1 < 10 := by decide
  have hshort : in_size_of (sample_env 1) < 2 * 2 * (8 / 8) := by decide
  have hloop : ¬ swap_hangs (sample_env 1)
      (sample_config 2 2 8 DC1394_BAYER_METHOD_AHD 0 false) := fun h => h.1 rfl
  obtain ⟨r, hr, hstatus, h8, -⟩ :=
    (main_short_input 10 (sample_env 1)
      (sample_config 2 2 8 DC1394_BAYER_METHOD_AHD 0 false) "in.raw" "out.rgb"
      (fun _ => 0) (fun _ => 0) rfl rfl (by decide) (by decide) (by decide)
      ⟨by decide, by decide, by decide, by decide⟩).2.1
      ⟨by decide, rfl, by decide, rfl⟩ hloop hfuel
  exact ⟨hshort, r, hr, hstatus, h8 rfl⟩

end Bayer2rgb
